import Mathlib

set_option autoImplicit false

/-
Verification of the DTKLP wrapper binding (dtklp_wrapper/modules.py).

The binding is a thin ctypes layer over a closed native license-plate
recognition library.  We embed it shallowly: the native library is a
structure of mock functions, every wrapper operation is a Lean function
returning the list of native calls it issued together with an
Except-value for its Python result, and the Python with-statement is a
combinator over such computations.  Byte buffers are lists of byte
values (Nat below 256 in the intended reading); Python strings are
represented by their lists of character codes where the distinction
matters.
-/

namespace DTKLP

/-- Events recording one call into the native library, with the
arguments the wrapper passes across the boundary. -/
inductive NCall where
  | createParams : NCall
  | destroyParams (p : Nat) : NCall
  | createEngine (p : Nat) (vidMode : Bool) (callback : Option Nat) : NCall
  | destroyEngine (e : Nat) : NCall
  | readFromMemFile (e : Nat) (data : List Nat) (len : Nat) : NCall
  | destroyResult (r : Nat) : NCall
  | getPlatesCount (r : Nat) : NCall
  | getPlate (r : Nat) (i : Nat) : NCall
  | destroyPlate (p : Nat) : NCall
  | getText (p : Nat) (data : List Nat) (size : Nat) : NCall
  | isLicensed (e : Nat) : NCall
  | activateOnline (data : List Nat) : NCall
  deriving DecidableEq, Repr

/-- Python-level exceptions that the modelled code can raise. -/
inductive PyErr where
  | typeError : PyErr
  | valueError : PyErr
  | attributeError : PyErr
  | nativeFail : PyErr
  deriving DecidableEq, Repr

/-- Mock native layer: one field per native entry point whose return
value the wrapper observes.  Handles are opaque Nat tokens.  The three
recognition-path calls may raise (modelling a failing mock or native
fault propagating as an exception); destruction calls return nothing
the wrapper observes, so they appear only as trace events.
LicensePlate_GetText yields the scratch-buffer contents after the call
together with the reported written length (a C int, hence Int). -/
structure Native where
  LPRParams_Create : Nat
  LPREngine_Create : Nat → Bool → Option Nat → Nat
  LPREngine_ReadFromMemFile : Nat → List Nat → Nat → Nat
  LPRResult_GetPlatesCount : Nat → Except Unit Int
  LPRResult_GetPlate : Nat → Nat → Except Unit Nat
  LicensePlate_GetText : Nat → Except Unit (List Nat × Int)
  LPREngine_IsLicensed : Nat → Int
  LPREngine_ActivateLicenseOnline : List Nat → Int

/-- Computation of the binding: the native calls issued (also on a
failing run) together with the Python outcome. -/
def TrM (α : Type) : Type := List NCall × Except PyErr α

/-- Computation returning a value with no native call. -/
def TrM.pure {α : Type} (a : α) : TrM α := ([], Except.ok a)

/-- Sequencing of binding computations: a raised exception propagates
and the traces accumulate. -/
def TrM.bind {α β : Type} (x : TrM α) (f : α → TrM β) : TrM β :=
  match x with
  | (tr, Except.error e) => (tr, Except.error e)
  | (tr, Except.ok a) =>
    match f a with
    | (tr2, r) => (tr ++ tr2, r)

/-- Python with-statement over a scope whose exit issues destruction
calls and cannot itself raise.  If enter raises, the exception
propagates and exit is NOT run (Python only calls the exit method of a
context manager once enter has returned); if the body raises, exit
still runs and the exception propagates (the wrapper exit methods
return None, which never suppresses). -/
def pyWith {α β : Type} (enter : TrM α) (body : α → TrM β) (exitFn : α → List NCall) : TrM β :=
  match enter with
  | (tr, Except.error e) => (tr, Except.error e)
  | (tr, Except.ok a) =>
    match body a with
    | (trb, Except.error e) => (tr ++ trb ++ exitFn a, Except.error e)
    | (trb, Except.ok b) => (tr ++ trb ++ exitFn a, Except.ok b)

/-- Model of ctypes.create_string_buffer(init, size): a buffer of
exactly size bytes holding init followed by zero padding; ValueError
when init does not fit.  With size equal to the length of init no
terminator is appended. -/
def create_string_buffer (init : List Nat) (size : Nat) : Except PyErr (List Nat) :=
  if init.length ≤ size then Except.ok (init ++ List.replicate (size - init.length) 0)
  else Except.error PyErr.valueError

/-- Model of the value attribute of a ctypes char buffer: the bytes
strictly before the first zero byte. -/
def ctypesValue (buf : List Nat) : List Nat := buf.takeWhile (fun b => b != 0)

/-- Model of the Python slice xs[0:stop] with an Int stop index:
negative stops count from the end, and the result is clamped. -/
def pySlice (xs : List Nat) (stop : Int) : List Nat :=
  xs.take (if stop < 0 then stop + xs.length else stop).toNat

/-- Code of a lowercase hexadecimal digit. -/
def hexDigitCode (n : Nat) : Nat := if n < 10 then 48 + n else 87 + n

/-- Escape of one byte in the Python repr of a bytes object with quote
character q: backslash, tab, newline, carriage return and the quote
are backslash-escaped, printable ASCII is literal, everything else
becomes a hexadecimal escape. -/
def pyByteRepr (q : Nat) (b : Nat) : List Nat :=
  if b = 92 then [92, 92]
  else if b = 9 then [92, 116]
  else if b = 10 then [92, 110]
  else if b = 13 then [92, 114]
  else if b = q then [92, b]
  else if 32 ≤ b ∧ b ≤ 126 then [b]
  else [92, 120, hexDigitCode (b / 16), hexDigitCode (b % 16)]

/-- Quote character the Python bytes repr chooses: a double quote when
the bytes contain a single quote but no double quote, else a single
quote. -/
def pyReprQuote (value : List Nat) : Nat :=
  if 39 ∈ value ∧ ¬ (34 ∈ value) then 34 else 39

/-- Character codes of str(b) for a Python 3 bytes object b: the repr,
a lowercase b followed by the quoted escaped contents.  Under Python 3
(the package declares python_requires of at least 3.5) str applied to
bytes yields this repr, not a decoding. -/
def pyStrOfBytes (value : List Nat) : List Nat :=
  let q := pyReprQuote value
  98 :: q :: (value.flatMap (pyByteRepr q) ++ [q])

/-- Character codes of the UTF-8 encoding of a string, modelling the
Python encode method with its default encoding. -/
def pyEncode (s : String) : List Nat := s.toUTF8.toList.map (fun b => b.toNat)

/-- Model of Lib.read_from_mem (modules.py lines 59 to 71): copies the
image bytes into a ctypes buffer of exactly their length and passes
buffer and length to LPREngine_ReadFromMemFile, returning the native
result handle. -/
def read_from_mem (nl : Native) (engine_obj : Nat) (buffer : List Nat) : TrM Nat :=
  let ba := buffer
  match create_string_buffer ba ba.length with
  | Except.error e => ([], Except.error e)
  | Except.ok data =>
    ([NCall.readFromMemFile engine_obj data ba.length],
     Except.ok (nl.LPREngine_ReadFromMemFile engine_obj data ba.length))

/-- Python values crossing the modelled method-call boundary. -/
inductive PyVal where
  | int (n : Nat) : PyVal
  | bytes (bs : List Nat) : PyVal
  deriving DecidableEq, Repr

/-- Model of a positional Python call to the bound method
Lib.read_from_mem, which declares two required parameters after self
(engine_obj and buffer).  Python raises TypeError before the body runs
when the argument count differs; argument lists of other shapes are
not exercised by the code under verification and are modelled as
TypeError as well. -/
def read_from_mem_call (nl : Native) (args : List PyVal) : TrM Nat :=
  match args with
  | [PyVal.int engine_obj, PyVal.bytes buffer] => read_from_mem nl engine_obj buffer
  | _ => ([], Except.error PyErr.typeError)

/-- Byte content of data.value[0:writen] in Lib.get_plate_text: the
first-zero-truncated buffer value, sliced by the reported written
length. -/
def plate_text_value (written : List Nat) (writen : Int) : List Nat :=
  pySlice (ctypesValue written) writen

/-- Model of Lib.get_plate_text (modules.py lines 114 to 125): a
scratch buffer of BUF_SIZE zero bytes is allocated and passed with
BUF_SIZE to LicensePlate_GetText; the mock yields the buffer contents
after the call and the reported written length; the returned Python
string is str(data.value[0:writen]), whose character codes
pyStrOfBytes computes. -/
def get_plate_text (nl : Native) (bufSize : Nat) (plate_obj : Nat) : TrM (List Nat) :=
  let data := List.replicate bufSize 0
  match nl.LicensePlate_GetText plate_obj with
  | Except.error _ => ([NCall.getText plate_obj data bufSize], Except.error PyErr.nativeFail)
  | Except.ok (written, writen) =>
    ([NCall.getText plate_obj data bufSize],
     Except.ok (pyStrOfBytes (plate_text_value written writen)))

/-- Model of Lib.engine_licensed (modules.py lines 127 to 136): a
direct pass-through of the native integer status. -/
def engine_licensed (nl : Native) (engine_obj : Nat) : TrM Int :=
  ([NCall.isLicensed engine_obj], Except.ok (nl.LPREngine_IsLicensed engine_obj))

/-- Model of Lib.activate_online (modules.py lines 138 to 149): the
key is encoded, copied into a ctypes buffer of exactly the encoded
length, and that buffer is passed to the native activation call. -/
def activate_online (nl : Native) (key : String) : TrM Int :=
  let ba := pyEncode key
  match create_string_buffer ba ba.length with
  | Except.error e => ([], Except.error e)
  | Except.ok data =>
    ([NCall.activateOnline data], Except.ok (nl.LPREngine_ActivateLicenseOnline data))

/-- Model of Lib.get_plates_count (modules.py lines 82 to 91). -/
def get_plates_count (nl : Native) (result_obj : Nat) : TrM Int :=
  match nl.LPRResult_GetPlatesCount result_obj with
  | Except.error _ => ([NCall.getPlatesCount result_obj], Except.error PyErr.nativeFail)
  | Except.ok n => ([NCall.getPlatesCount result_obj], Except.ok n)

/-- Model of Lib.get_plate (modules.py lines 93 to 103). -/
def get_plate (nl : Native) (result_obj : Nat) (index : Nat) : TrM Nat :=
  match nl.LPRResult_GetPlate result_obj index with
  | Except.error _ => ([NCall.getPlate result_obj index], Except.error PyErr.nativeFail)
  | Except.ok p => ([NCall.getPlate result_obj index], Except.ok p)

/-- Trace of Lib.destroy_plate (modules.py lines 105 to 112). -/
def destroy_plate (plate_obj : Nat) : List NCall := [NCall.destroyPlate plate_obj]

/-- Trace of Lib.destroy_result (modules.py lines 73 to 80). -/
def destroy_result (result_obj : Nat) : List NCall := [NCall.destroyResult result_obj]

/-- Trace of Lib.destroy_params (modules.py lines 28 to 35). -/
def destroy_params (params_obj : Nat) : List NCall := [NCall.destroyParams params_obj]

/-- Model of the enter method of EngineParams (modules.py lines 163 to
167): creates an LPRParams object and returns its handle. -/
def engineParams_enter (nl : Native) : TrM Nat :=
  ([NCall.createParams], Except.ok nl.LPRParams_Create)

/-- Model of Lib.create_engine (modules.py lines 37 to 48). -/
def create_engine (nl : Native) (params_obj : Nat) (vidMode : Bool) (callback : Option Nat) : TrM Nat :=
  ([NCall.createEngine params_obj vidMode callback],
   Except.ok (nl.LPREngine_Create params_obj vidMode callback))

/-- Model of the enter method of ImageEngine (modules.py lines 189 to
196).  When the caller supplied no EngineParams the engine builds a
fresh one over the same Lib; either way that EngineParams object is
entered (creating the native params handle), the engine is created
inside its scope with vid_mode False and callback None, and the params
scope exits (destroying the params handle) before enter returns the
engine handle. -/
def imageEngine_enter (nl : Native) (params : Option Unit) : TrM Nat :=
  match params with
  | none =>
    pyWith (engineParams_enter nl) (fun ep => create_engine nl ep false none) destroy_params
  | some _ =>
    pyWith (engineParams_enter nl) (fun ep => create_engine nl ep false none) destroy_params

/-- Model of one iteration body of the Result._load loop (modules.py
lines 268 to 269) for an already fetched plate handle: the with
statement enters the Plate (its _load fetches the text), the body
appends the describe value, and exit destroys the plate handle. -/
def plate_scope (nl : Native) (bufSize : Nat) (plate_obj : Nat) : TrM (List Nat) :=
  pyWith (get_plate_text nl bufSize plate_obj)
    (fun text => TrM.pure text)
    (fun _ => destroy_plate plate_obj)

/-- Model of the Result._load loop (modules.py lines 267 to 269) over
the listed indices: each iteration fetches the plate handle at the
index and runs the plate scope, collecting the texts in order. -/
def result_load_loop (nl : Native) (bufSize : Nat) (result_obj : Nat) : List Nat → TrM (List (List Nat))
  | [] => TrM.pure []
  | i :: rest =>
    TrM.bind (get_plate nl result_obj i) (fun p =>
    TrM.bind (plate_scope nl bufSize p) (fun text =>
    TrM.bind (result_load_loop nl bufSize result_obj rest) (fun texts =>
    TrM.pure (text :: texts))))

/-- Model of Result._load (modules.py lines 264 to 269): reads the
native plate count, then iterates over range of that count (empty for
a nonpositive count, as the Python range of an Int is). -/
def result_load (nl : Native) (bufSize : Nat) (result_obj : Nat) : TrM (Int × List (List Nat)) :=
  TrM.bind (get_plates_count nl result_obj) (fun count =>
  TrM.bind (result_load_loop nl bufSize result_obj (List.range count.toNat)) (fun plates =>
  TrM.pure (count, plates)))

/-- Description dictionary returned by Result.describe and Lib users:
found holds the loaded plates_count and plates the loaded text list. -/
structure Desc where
  found : Int
  plates : List (List Nat)
  deriving DecidableEq, Repr

/-- Model of the with res block of ImageEngine.process (modules.py
lines 234 to 236) applied to a result handle: entering the Result runs
_load, the body returns describe, and exit destroys the result
handle. -/
def result_scope_describe (nl : Native) (bufSize : Nat) (result_obj : Nat) : TrM Desc :=
  pyWith (result_load nl bufSize result_obj)
    (fun st => TrM.pure (Desc.mk st.1 st.2))
    (fun _ => destroy_result result_obj)

/-- Model of ImageEngine.process (modules.py lines 225 to 236).  The
engine handle stored at scope entry is self_obj; the body as written
never reads it: the first statement calls the bound method
read_from_mem with the single positional argument bytes, although that
method requires both engine_obj and buffer. -/
def process (nl : Native) (bufSize : Nat) (self_obj : Nat) (bs : List Nat) : TrM Desc :=
  TrM.bind (read_from_mem_call nl [PyVal.bytes bs]) (fun result_obj =>
  result_scope_describe nl bufSize result_obj)

/-- Model of ImageEngine.is_licensed (modules.py lines 203 to 211):
True exactly when the native status equals zero. -/
def is_licensed (nl : Native) (engine_obj : Nat) : TrM Bool :=
  TrM.bind (engine_licensed nl engine_obj) (fun res => TrM.pure (res == 0))

/-- Model of ImageEngine.activate (modules.py lines 213 to 223): True
exactly when the native activation status equals zero. -/
def activate (nl : Native) (key : String) : TrM Bool :=
  TrM.bind (activate_online nl key) (fun res => TrM.pure (res == 0))

/-- Scope operations performed on one EngineParams object. -/
inductive EPOp where
  | enterScope : EPOp
  | exitScope : EPOp
  deriving DecidableEq, Repr

/-- State machine of one EngineParams object (modules.py lines 152 to
172) run over a list of scope operations.  The state is the number of
LPRParams_Create calls issued so far together with the obj attribute
(none before the first enter).  fresh gives the handle returned by the
n-th native create call.  Enter stores the newly created handle in
obj, overwriting any previous one; exit destroys exactly the handle
currently stored in obj and leaves obj unchanged; exit before any
enter is an AttributeError since obj is unset. -/
def runEngineParams (fresh : Nat → Nat) : List EPOp → Nat × Option Nat → (Nat × Option Nat) × List NCall × Except PyErr Unit
  | [], st => (st, [], Except.ok ())
  | EPOp.enterScope :: rest, (n, _) =>
    match runEngineParams fresh rest (n + 1, some (fresh n)) with
    | (st, tr, r) => (st, NCall.createParams :: tr, r)
  | EPOp.exitScope :: rest, (n, some h) =>
    match runEngineParams fresh rest (n, some h) with
    | (st, tr, r) => (st, NCall.destroyParams h :: tr, r)
  | EPOp.exitScope :: _, (n, none) => ((n, none), [], Except.error PyErr.attributeError)

/-- Mock native layer for the enumeration-failure scenario: parameter
handle 1, engine handle 2, result handle 3, one detected plate with
handle 7 whose text extraction raises. -/
def leakNative : Native where
  LPRParams_Create := 1
  LPREngine_Create := fun _ _ _ => 2
  LPREngine_ReadFromMemFile := fun _ _ _ => 3
  LPRResult_GetPlatesCount := fun _ => Except.ok 1
  LPRResult_GetPlate := fun _ _ => Except.ok 7
  LicensePlate_GetText := fun _ => Except.error ()
  LPREngine_IsLicensed := fun _ => 0
  LPREngine_ActivateLicenseOnline := fun _ => 0

/-- Mock native layer for the text-extraction scenarios: plate 7
yields buffer contents AB followed by zero padding with written length
2, and plate 8 yields an A, a zero byte, a B and padding with written
length 3. -/
def truncNative : Native :=
  { leakNative with
    LicensePlate_GetText := fun p =>
      if p = 7 then Except.ok ([65, 66, 0, 0], 2) else Except.ok ([65, 0, 66, 0], 3) }

/-- Mock native layer reporting zero detected plates. -/
def zeroNative : Native :=
  { leakNative with LPRResult_GetPlatesCount := fun _ => Except.ok 0 }

/-- Helper: a ctypes string buffer created from init with size exactly
the length of init holds exactly init, with no padding. -/
theorem create_string_buffer_exact (init : List Nat) :
    create_string_buffer init init.length = Except.ok init := by
  simp [create_string_buffer]

/-- C1: the claim fails on the code.  ImageEngine.process calls the
bound method read_from_mem with the single positional argument bytes,
although the method requires engine_obj and buffer, so every process
invocation raises TypeError at that call, issues no native call at
all, and in particular never passes the engine handle and the image
bytes to LPREngine_ReadFromMemFile and never returns a describe
dictionary. -/
theorem process_raises_typeError_no_native_call (nl : Native) (bufSize : Nat)
    (self_obj : Nat) (bs : List Nat) :
    process nl bufSize self_obj bs = ([], Except.error PyErr.typeError) := rfl

/-- C2: the claim fails on the code.  Against a mock native layer
reporting one detected plate whose text extraction raises, the with
block of process applied to result handle 3 issues the create-style
call getPlate (yielding plate handle 7) but never issues destroyPlate
or destroyResult: the exception escapes the enter method of the
Result scope (its _load runs there), and Python does not run the exit
method of a scope whose enter raised, so both handles leak. -/
theorem result_scope_leaks_on_text_failure :
    result_scope_describe leakNative 4 3 =
      ([NCall.getPlatesCount 3, NCall.getPlate 3 0, NCall.getText 7 [0, 0, 0, 0] 4],
       Except.error PyErr.nativeFail) ∧
    (result_scope_describe leakNative 4 3).1.count (NCall.getPlate 3 0) = 1 ∧
    (result_scope_describe leakNative 4 3).1.count (NCall.destroyPlate 7) = 0 ∧
    (result_scope_describe leakNative 4 3).1.count (NCall.destroyResult 3) = 0 :=
  ⟨rfl, rfl, rfl, rfl⟩

/-- C3: the claim fails on the code.  Lib.get_plate_text returns
str(data.value[0:writen]) under Python 3.  With buffer size 4 and a
mock whose native call writes bytes 65 66 0 0 reporting written
length 2, the returned string has character codes 98 39 65 66 39 (the
repr of the bytes object, a lowercase b and quotes around AB), not
the decoded text with codes 65 66; with written bytes 65 0 66 0 and
reported length 3, the value attribute truncates at the first zero
byte, so the returned string has codes 98 39 65 39 and is not the
first three buffer bytes 65 0 66 decoded. -/
theorem get_plate_text_repr_and_nul_truncation :
    get_plate_text truncNative 4 7 =
      ([NCall.getText 7 [0, 0, 0, 0] 4], Except.ok [98, 39, 65, 66, 39]) ∧
    ([98, 39, 65, 66, 39] : List Nat) ≠ [65, 66] ∧
    get_plate_text truncNative 4 8 =
      ([NCall.getText 8 [0, 0, 0, 0] 4], Except.ok [98, 39, 65, 39]) ∧
    ([98, 39, 65, 39] : List Nat) ≠ [65, 0, 66] :=
  ⟨rfl, by decide, rfl, by decide⟩

/-- C4: the claim fails on the code.  Even against a mock native layer
reporting zero detected plates, process does not return the dictionary
with found zero and an empty plates list: it raises TypeError at the
read_from_mem call before reaching the native layer at all. -/
theorem process_zero_plates_raises_not_empty_desc :
    process zeroNative 32 2 [9, 9, 9] = ([], Except.error PyErr.typeError) ∧
    (process zeroNative 32 2 [9, 9, 9]).2 ≠ Except.ok (Desc.mk 0 []) :=
  ⟨rfl, by
    show Except.error PyErr.typeError ≠ Except.ok (Desc.mk 0 [])
    simp⟩

/-- C5: confirmed.  ImageEngine.is_licensed issues exactly the native
isLicensed call and returns the boolean comparison of its integer
status with zero, raising nothing: the outcome is ok for every native
status, and it is ok true exactly when the status is zero, so every
nonzero status, negative ones included, maps to false. -/
theorem is_licensed_iff_zero (nl : Native) (engine_obj : Nat) :
    is_licensed nl engine_obj =
      ([NCall.isLicensed engine_obj],
       Except.ok (nl.LPREngine_IsLicensed engine_obj == 0)) ∧
    ((is_licensed nl engine_obj).2 = Except.ok true ↔
      nl.LPREngine_IsLicensed engine_obj = 0) := by
  refine ⟨rfl, ?_⟩
  simp [is_licensed, engine_licensed, TrM.bind, TrM.pure]

/-- C6: confirmed.  ImageEngine.activate hands the native activation
call a buffer holding exactly the UTF-8 encoded bytes of the key, and
returns true exactly when the native status is zero. -/
theorem activate_iff_zero_and_exact_key_buffer (nl : Native) (key : String) :
    activate nl key =
      ([NCall.activateOnline (pyEncode key)],
       Except.ok (nl.LPREngine_ActivateLicenseOnline (pyEncode key) == 0)) ∧
    ((activate nl key).2 = Except.ok true ↔
      nl.LPREngine_ActivateLicenseOnline (pyEncode key) = 0) := by
  have hbuf := create_string_buffer_exact (pyEncode key)
  constructor
  · simp [activate, activate_online, TrM.bind, TrM.pure, hbuf]
  · simp [activate, activate_online, TrM.bind, TrM.pure, hbuf]

/-- C7: confirmed.  Entering an ImageEngine scope, with or without a
caller-supplied EngineParams, creates the params handle, creates the
engine from that handle with the video-mode flag false and a null
callback, and destroys the params handle immediately after engine
creation, all before scope entry returns the engine handle. -/
theorem imageEngine_enter_still_image_params_lifecycle (nl : Native) (params : Option Unit) :
    imageEngine_enter nl params =
      ([NCall.createParams,
        NCall.createEngine nl.LPRParams_Create false none,
        NCall.destroyParams nl.LPRParams_Create],
       Except.ok (nl.LPREngine_Create nl.LPRParams_Create false none)) := by
  cases params <;> rfl

/-- C8: confirmed.  Lib.read_from_mem copies the image bytes into a
buffer of exactly their length whose content equals the input bytes,
and passes that buffer together with the length to the native
LPREngine_ReadFromMemFile call. -/
theorem read_from_mem_exact_buffer (nl : Native) (engine_obj : Nat) (buffer : List Nat) :
    read_from_mem nl engine_obj buffer =
      ([NCall.readFromMemFile engine_obj buffer buffer.length],
       Except.ok (nl.LPREngine_ReadFromMemFile engine_obj buffer buffer.length)) := by
  simp [read_from_mem, create_string_buffer_exact]

/-- C9: confirmed.  When the native text call reports buffer contents
and a written length, the string get_plate_text returns is built from
the byte content plate_text_value, and that content is a prefix of the
bytes strictly before the first zero byte of the scratch buffer: it
never includes the first zero byte or any byte after it, even when the
reported written length extends past that zero byte. -/
theorem get_plate_text_value_stops_at_first_zero (nl : Native) (bufSize : Nat)
    (plate_obj : Nat) (written : List Nat) (writen : Int)
    (h : nl.LicensePlate_GetText plate_obj = Except.ok (written, writen)) :
    (get_plate_text nl bufSize plate_obj).2 =
      Except.ok (pyStrOfBytes (plate_text_value written writen)) ∧
    (∃ rest, plate_text_value written writen ++ rest = ctypesValue written) ∧
    0 ∉ plate_text_value written writen := by
  refine ⟨?_, ?_, ?_⟩
  · simp [get_plate_text, h]
  · exact ⟨(ctypesValue written).drop
        (if writen < 0 then writen + (ctypesValue written).length else writen).toNat,
      List.take_append_drop _ (ctypesValue written)⟩
  · intro hmem
    simp only [plate_text_value, pySlice, ctypesValue] at hmem
    have hval := List.mem_takeWhile_imp (List.mem_of_mem_take hmem)
    simp at hval

/-- Witness for C9: the theorem applied to the mock truncNative at
plate handle 7 with buffer contents 65 66 0 0 and written length 2. -/
theorem get_plate_text_value_stops_at_first_zero_witness :
    truncNative.LicensePlate_GetText 7 = Except.ok ([65, 66, 0, 0], 2) ∧
    ((get_plate_text truncNative 4 7).2 =
        Except.ok (pyStrOfBytes (plate_text_value [65, 66, 0, 0] 2)) ∧
      (∃ rest, plate_text_value [65, 66, 0, 0] 2 ++ rest = ctypesValue [65, 66, 0, 0]) ∧
      0 ∉ plate_text_value [65, 66, 0, 0] 2) :=
  ⟨rfl, get_plate_text_value_stops_at_first_zero truncNative 4 7 [65, 66, 0, 0] 2 rfl⟩

/-- C10: confirmed.  Each EngineParams scope entry issues createParams
and overwrites the stored handle with the newly created one, each
scope exit destroys exactly the currently stored handle, and when one
EngineParams object is entered twice without an intervening exit and
the two created handles differ, both subsequent exits destroy the
second handle and the first created handle is never passed to
destroyParams. -/
theorem engineParams_reenter_lifecycle (fresh : Nat → Nat) (h : fresh 0 ≠ fresh 1) :
    (∀ n st, runEngineParams fresh [EPOp.enterScope] (n, st) =
      ((n + 1, some (fresh n)), [NCall.createParams], Except.ok ())) ∧
    (∀ n p, runEngineParams fresh [EPOp.exitScope] (n, some p) =
      ((n, some p), [NCall.destroyParams p], Except.ok ())) ∧
    (runEngineParams fresh
        [EPOp.enterScope, EPOp.enterScope, EPOp.exitScope, EPOp.exitScope] (0, none)).2.1 =
      [NCall.createParams, NCall.createParams,
       NCall.destroyParams (fresh 1), NCall.destroyParams (fresh 1)] ∧
    NCall.destroyParams (fresh 0) ∉
      (runEngineParams fresh
        [EPOp.enterScope, EPOp.enterScope, EPOp.exitScope, EPOp.exitScope] (0, none)).2.1 := by
  refine ⟨fun n st => rfl, fun n p => rfl, rfl, ?_⟩
  simp [runEngineParams, h]

/-- Witness for C10: the theorem applied to the identity handle
supply, whose first two created handles 0 and 1 differ. -/
theorem engineParams_reenter_lifecycle_witness :
    id 0 ≠ id 1 ∧
    ((∀ n st, runEngineParams id [EPOp.enterScope] (n, st) =
      ((n + 1, some (id n)), [NCall.createParams], Except.ok ())) ∧
    (∀ n p, runEngineParams id [EPOp.exitScope] (n, some p) =
      ((n, some p), [NCall.destroyParams p], Except.ok ())) ∧
    (runEngineParams id
        [EPOp.enterScope, EPOp.enterScope, EPOp.exitScope, EPOp.exitScope] (0, none)).2.1 =
      [NCall.createParams, NCall.createParams,
       NCall.destroyParams (id 1), NCall.destroyParams (id 1)] ∧
    NCall.destroyParams (id 0) ∉
      (runEngineParams id
        [EPOp.enterScope, EPOp.enterScope, EPOp.exitScope, EPOp.exitScope] (0, none)).2.1) :=
  ⟨by decide, engineParams_reenter_lifecycle id (by decide)⟩

end DTKLP
